import Mathlib

/-
Verification of the DIY-AI Fix-It application (a React + TypeScript app around
the Gemini API) against its natural-language specification.

The embedding below translates the data model (src/types.ts), the App-level
state and event handlers (src/App.tsx), the form submit handler
(src/unnamed/part_002, InputForm), the chat send handler and its text
formatter (src/unnamed/part_001, ChatComponent), and the service layer
(src/services/geminiService.ts) into pure Lean functions.  Effects are made
explicit: asynchronous handlers become functions from the awaited outcome to
the next state, and outgoing calls (the fetch call, the startChatSession
call, the request sent to the model) are recorded in returned trace records.
JavaScript-specific semantics that the source relies on are modelled
faithfully: truthiness of strings and arrays, `String.prototype.trim`,
`String.prototype.replace` with a string pattern (first occurrence only and
dollar replacement patterns), `String.prototype.includes`, and `x || y`
defaulting.
-/

namespace DIYAI

/-! ## JavaScript string primitives -/

/-- The characters matched by JavaScript's `\s` regex class and removed by
`String.prototype.trim`: WhiteSpace (TAB, VT, FF, SP, NBSP, ZWNBSP and the
Unicode Zs category) plus the LineTerminator characters. -/
def jsWhitespaceChars : List Char :=
  [' ', '\t', '\n', '\r', Char.ofNat 0x0B, Char.ofNat 0x0C, Char.ofNat 0xA0,
   Char.ofNat 0x1680, Char.ofNat 0x2000, Char.ofNat 0x2001, Char.ofNat 0x2002,
   Char.ofNat 0x2003, Char.ofNat 0x2004, Char.ofNat 0x2005, Char.ofNat 0x2006,
   Char.ofNat 0x2007, Char.ofNat 0x2008, Char.ofNat 0x2009, Char.ofNat 0x200A,
   Char.ofNat 0x2028, Char.ofNat 0x2029, Char.ofNat 0x202F, Char.ofNat 0x205F,
   Char.ofNat 0x3000, Char.ofNat 0xFEFF]

def jsIsWhitespace (c : Char) : Bool := jsWhitespaceChars.contains c

/-- ECMAScript LineTerminator characters, after which a multiline `^` matches. -/
def jsLineTerminators : List Char := ['\n', '\r', Char.ofNat 0x2028, Char.ofNat 0x2029]

def jsIsLineTerminator (c : Char) : Bool := jsLineTerminators.contains c

/-- `String.prototype.trim`: strip JavaScript whitespace from both ends. -/
def jsTrim (s : String) : String :=
  String.mk (((s.data.dropWhile jsIsWhitespace).reverse.dropWhile jsIsWhitespace).reverse)

/-- Truthiness of a JavaScript `string | undefined | null` value: `undefined`,
`null` and the empty string are falsy. -/
def jsTruthyString : Option String → Bool
  | none => false
  | some s => s != ""

/-- Truthiness of a JavaScript `array | undefined` value: any array object,
including the empty array, is truthy. -/
def jsTruthyArray : Option (List String) → Bool
  | none => false
  | some _ => true

/-- JavaScript `v || fallback` on a possibly-absent string `v`. -/
def jsOrDefault (v : Option String) (fallback : String) : String :=
  match v with
  | none => fallback
  | some s => if s = "" then fallback else s

/-- Split `cs` around the first occurrence of `pat`: `some (pre, post)` with
`cs = pre ++ pat ++ post` and `pre` shortest, or `none` when `pat` does not
occur.  This is the search step shared by `String.prototype.replace` (with a
string pattern) and `String.prototype.includes`. -/
def findSplit (pat : List Char) : List Char → Option (List Char × List Char)
  | [] => if pat.isPrefixOf ([] : List Char) then some ([], []) else none
  | c :: rest =>
    if pat.isPrefixOf (c :: rest) then some ([], (c :: rest).drop pat.length)
    else
      match findSplit pat rest with
      | some (pre, post) => some (c :: pre, post)
      | none => none

/-- `String.prototype.startsWith` for the host string `s` and search string
`pat`: a prefix test. -/
def jsStartsWith (s pat : String) : Bool :=
  pat.data.isPrefixOf s.data

/-- `String.prototype.includes` for the host string `s` and search string `pat`. -/
def jsIncludes (s pat : String) : Bool :=
  (findSplit pat.data s.data).isSome

/-- GetSubstitution for `String.prototype.replace` with a string pattern:
expand the dollar replacement patterns in the replacement text.  With a string
pattern there are no capture groups, so only four patterns are special:
two dollars give a literal dollar, dollar-ampersand gives the matched text,
dollar-backquote the text before the match and dollar-apostrophe the text
after it; any other dollar is literal. -/
def jsExpandReplacement (matched before after : List Char) : List Char → List Char
  | [] => []
  | '$' :: '$' :: rest => '$' :: jsExpandReplacement matched before after rest
  | '$' :: '&' :: rest => matched ++ jsExpandReplacement matched before after rest
  | '$' :: '\x60' :: rest => before ++ jsExpandReplacement matched before after rest
  | '$' :: '\'' :: rest => after ++ jsExpandReplacement matched before after rest
  | '$' :: d :: rest => '$' :: jsExpandReplacement matched before after (d :: rest)
  | ['$'] => ['$']
  | c :: rest => c :: jsExpandReplacement matched before after rest

/-- `s.replace(pat, repl)` with a string pattern: replace the first occurrence
of `pat` only, expanding dollar patterns in `repl`. -/
def jsReplaceFirst (s pat repl : String) : String :=
  match findSplit pat.data s.data with
  | some (pre, post) => String.mk (pre ++ jsExpandReplacement pat.data pre post repl.data ++ post)
  | none => s

/-! ## Data model (src/types.ts) -/

inductive Risk
  | Low
  | Medium
  | High
deriving DecidableEq

structure Solution where
  risk : Risk
  safetyWarning : Option String
  diagnosis : Option String
  tools : Option (List String)
  instructions : Option (List String)
  difficulty : Option String
  estimatedTime : Option String
  potentialPitfalls : Option (List String)
deriving DecidableEq

inductive Sender
  | user
  | ai
deriving DecidableEq

structure ChatMessage where
  sender : Sender
  text : String
  isLoading : Bool
deriving DecidableEq

structure PartIdentification where
  partName : String
  modelNumber : Option String
  description : String
  purchaseLocations : List String
  installationVideo : Option String
deriving DecidableEq

structure VerificationResult where
  isCorrect : Bool
  feedback : String
deriving DecidableEq

/-! ## Service layer (src/services/geminiService.ts)

Each exported service function is embedded as a pure function from its
arguments and the environment's API key to a description of its outward
behaviour: either the mock fallback (a payload resolved after a fixed delay)
or the single request it sends to the generative model. -/

/-- The photo and video system-instruction templates (geminiService.ts).
Each template literal is transcribed as a concatenation of segments around
its one locale placeholder (the segment boundaries carry no
meaning; the concatenation is the source string, character for character). -/
def PHOTO_BEFORE_LOCALE_1 : String :=
  "You are an expert DIY assistant named \"DIY-AI Fix-It\". Your role is to help users solve common household problems safely and effectively. A user has provided an image and a text description. The user is located in **"

def PHOTO_AFTER_LOCALE_1 : String :=
  "**. Your suggestions for tools and materials should reflect what is commonly available and named in this region (e.g., \"spanner\" in the UK vs. \"wrench\" in the USA; metric vs. imperial units where appropriate). If the location is 'Generic/Global', use widely understood terms.\n\nPerform the following actions in order:\n1.  **Risk Assessment:** First, analyze the user's request to determine the risk level for a typical homeowner. Categorize it as 'Low', 'Medium', or 'High'. High-risk tasks involve main electrical panels, gas lines, structural modifications, or anything requiring licensed professionals.\n"

def PHOTO_AFTER_LOCALE_2 : String :=
  "2.  **Response Generation:**\n    -   **If the risk is 'High'**: Your response MUST be a JSON object containing ONLY two keys: \"risk\": \"High\" and \"safetyWarning\": \"[A clear, firm message advising the user to stop and consult a licensed professional. Explain briefly why it's high-risk, e.g., 'Working with main electrical panels can be fatal.']\". **DO NOT provide any DIY steps.**\n"

def PHOTO_AFTER_LOCALE_3 : String :=
  "    -   **If the risk is 'Low' or 'Medium'**: Proceed with the full analysis and generate a JSON object with all the following keys: \"risk\", \"diagnosis\", \"tools\", \"instructions\", \"difficulty\", \"estimatedTime\", and \"potentialPitfalls\". The \"risk\" key must reflect your assessment ('Low' or 'Medium'). Instructions must begin with a safety warning if applicable (e.g., \"Safety First: Turn off the water supply...\").\n\nYour entire response MUST be in a valid JSON format, with no extra text before or after the JSON object."

def PHOTO_BEFORE_LOCALE : String := PHOTO_BEFORE_LOCALE_1

def PHOTO_AFTER_LOCALE : String := PHOTO_AFTER_LOCALE_1 ++ PHOTO_AFTER_LOCALE_2 ++ PHOTO_AFTER_LOCALE_3

def SYSTEM_INSTRUCTION_PHOTO : String :=
  PHOTO_BEFORE_LOCALE ++ "{locale}" ++ PHOTO_AFTER_LOCALE

def VIDEO_BEFORE_LOCALE_1 : String :=
  "You are a master repair technician named \"DIY-AI Fix-It\". A user has provided a short video and a text description of a household problem. Your task is to analyze the video to diagnose the issue with a high degree of accuracy. Pay close attention to the speed, direction, and consistency of any motion, as well as any audible sounds. The user is located in **"

def VIDEO_AFTER_LOCALE_1 : String :=
  "**. Your suggestions for tools and materials should reflect what is commonly available and named in this region (e.g., \"spanner\" in the UK vs. \"wrench\" in the USA; metric vs. imperial units where appropriate). If the location is 'Generic/Global', use widely understood terms.\n\nPerform the following actions in order:\n1.  **Risk Assessment:** First, analyze the user's request to determine the risk level for a typical homeowner. Categorize it as 'Low', 'Medium', or 'High'. High-risk tasks involve main electrical panels, gas lines, structural modifications, or anything requiring licensed professionals.\n"

def VIDEO_AFTER_LOCALE_2 : String :=
  "2.  **Response Generation:**\n    -   **If the risk is 'High'**: Your response MUST be a JSON object containing ONLY two keys: \"risk\": \"High\" and \"safetyWarning\": \"[A clear, firm message advising the user to stop and consult a licensed professional. Explain briefly why it's high-risk, e.g., 'Working with main electrical panels can be fatal.']\". **DO NOT provide any DIY steps.**\n"

def VIDEO_AFTER_LOCALE_3 : String :=
  "    -   **If the risk is 'Low' or 'Medium'**: Proceed with the full analysis and generate a JSON object with all the following keys: \"risk\", \"diagnosis\", \"tools\", \"instructions\", \"difficulty\", \"estimatedTime\", and \"potentialPitfalls\". The \"risk\" key must reflect your assessment ('Low' or 'Medium'). Instructions must begin with a safety warning if applicable (e.g., \"Safety First: Turn off the water supply...\").\n\nYour entire response MUST be in a valid JSON format, with no extra text before or after the JSON object."

def VIDEO_BEFORE_LOCALE : String := VIDEO_BEFORE_LOCALE_1

def VIDEO_AFTER_LOCALE : String := VIDEO_AFTER_LOCALE_1 ++ VIDEO_AFTER_LOCALE_2 ++ VIDEO_AFTER_LOCALE_3

def SYSTEM_INSTRUCTION_VIDEO : String :=
  VIDEO_BEFORE_LOCALE ++ "{locale}" ++ VIDEO_AFTER_LOCALE


def PART_FINDER_INSTRUCTION : String :=
  "You are an expert hardware and parts identifier. Your task is to analyze an image of a household or mechanical part and identify it with high precision. Use your visual recognition and OCR capabilities to extract any text, numbers, or logos from the part.\n\nBased on the image, perform the following actions:\n1.  **Identify the Part:** Clearly state the name of the part (e.g., \"Moen 1225 single-handle faucet cartridge\").\n2.  **Find Model Number:** If visible or identifiable, provide the exact model number or part number. If not available, state that.\n3.  **Describe the Part:** Briefly describe its function and common use.\n4.  **Suggest Purchase Locations:** List common places to buy this part (e.g., \"Home Depot\", \"Lowe's\", \"Amazon\", \"Local plumbing supply store\").\n5.  **Find Installation Guide:** Provide a URL to a helpful installation video or guide if you can find a relevant one (e.g., a YouTube link).\n\nYour entire response MUST be in a valid JSON format."

def STEP_VERIFICATION_INSTRUCTION : String :=
  "You are a DIY supervisor. Your goal is to check if a user has correctly completed a repair step.\n\nYou will be given:\n1.  The specific instruction the user was supposed to follow.\n2.  An image of the object **BEFORE** the step was performed.\n3.  An image of the object **AFTER** the user claims to have performed the step.\n\nYour task is to visually compare the \"before\" and \"after\" images in the context of the instruction. Then, determine if the step was completed correctly.\n\nYour response MUST be a valid JSON object with two keys:\n1.  \"isCorrect\" (boolean): `true` if the step is done correctly, `false` otherwise.\n2.  \"feedback\" (string): A short, clear, and encouraging message for the user.\n    - If correct, confirm it (e.g., \"Excellent. The nut is now properly seated. You can proceed to the next step.\").\n    - If incorrect, explain what seems to be wrong and suggest a correction (e.g., \"It looks like it's still a bit loose. Based on the thread pattern, try tightening it another quarter turn.\")."

def CHAT_INSTRUCTION_HEAD : String :=
  "You are a helpful DIY assistant. The user has already received an initial diagnosis and a set of instructions for their problem. Your role now is to answer follow-up questions clearly and concisely.\n\n**Formatting Rules:**\n- Do not use markdown like asterisks (*) for bolding or italics.\n- For lists, use a hyphen (-) at the beginning of each line.\n\nHere is the context of the original problem and the solution you provided:\n"

def CHAT_INSTRUCTION_TAIL : String :=
  "\n\nNow, continue the conversation and help the user with any further questions they have about this specific repair. Be friendly and encouraging. If they ask about a new problem, politely ask them to start a new \"Fix-It\" session."

def MOCK_SOLUTION : Solution where
  risk := Risk.Low
  safetyWarning := none
  diagnosis := some "This is a sample diagnosis for a leaky faucet. The O-ring is likely worn out and needs replacement."
  tools := some ["Adjustable wrench",
    "Phillips head screwdriver",
    "Replacement O-ring kit",
    "Rag"]
  instructions := some ["Safety First: Turn off the water supply valves under the sink before starting.",
    "Use the adjustable wrench to loosen the faucet handle's base.",
    "Lift the handle off to expose the faucet body.",
    "Unscrew the cap with your wrench.",
    "Carefully pull out the faucet cartridge or ball valve.",
    "Locate and replace the old O-rings with new ones from your kit.",
    "Reassemble the faucet in reverse order.",
    "Turn the water supply back on slowly and check for leaks."]
  difficulty := some "Beginner"
  estimatedTime := some "30-45 minutes"
  potentialPitfalls := some ["Forgetting to turn off the water supply.",
    "Using the wrong size replacement O-rings.",
    "Scratching the faucet finish with tools."]

def MOCK_PART : PartIdentification where
  partName := "Moen 1225 Single-Handle Faucet Cartridge"
  modelNumber := some "1225 / 1225B"
  description := "A common replacement cartridge for Moen single-handle faucets, used to control water flow and temperature. Fixes most leaks and drips from the spout."
  purchaseLocations := ["Home Depot",
    "Lowe's",
    "Amazon",
    "Local plumbing supply stores"]
  installationVideo := some "https://www.youtube.com/watch?v=kC9_W_x_5_c"

def MOCK_VERIFICATION : VerificationResult where
  isCorrect := true
  feedback := "Looks great! You've successfully completed the step. Ready for the next one."

/-- A part of a multimodal request: inline file bytes or text. -/
inductive RequestPart
  | inlineData (data : String) (mimeType : String)
  | textPart (text : String)
deriving DecidableEq

/-- The one request a service function sends to the generative model. -/
structure GenerateContentRequest where
  model : String
  parts : List RequestPart
  systemInstruction : String
deriving DecidableEq

/-- Outward behaviour of a service function: resolve with a hardcoded mock
payload after a delay (no external call), or send one request to the model. -/
inductive ServiceBehavior (A : Type)
  | mockResponse (delayMs : Nat) (payload : A)
  | modelRequest (request : GenerateContentRequest)
deriving DecidableEq

/-- `getFixItSolution` (geminiService.ts): without a truthy API key, resolve
the mock solution after 2000 ms; otherwise build the one model request,
choosing the video system-instruction template when the MIME type starts with
`video/` and the photo template otherwise, and interpolating the locale into
the template via `String.prototype.replace`. -/
def getFixItSolution (apiKey : Option String)
    (fileBase64 mimeType problemDescription locale : String) : ServiceBehavior Solution :=
  if !jsTruthyString apiKey then
    ServiceBehavior.mockResponse 2000 MOCK_SOLUTION
  else
    let systemInstructionTemplate :=
      if jsStartsWith mimeType "video/" then SYSTEM_INSTRUCTION_VIDEO else SYSTEM_INSTRUCTION_PHOTO
    let systemInstruction := jsReplaceFirst systemInstructionTemplate "{locale}" locale
    ServiceBehavior.modelRequest
      { model := "gemini-2.5-flash"
        parts := [RequestPart.inlineData fileBase64 mimeType, RequestPart.textPart problemDescription]
        systemInstruction := systemInstruction }

/-- The chat object returned by `startChatSession`, reduced to the system
instruction it is created with. -/
structure ChatSession where
  systemInstruction : String
deriving DecidableEq

/-- `startChatSession` (geminiService.ts): null without a truthy API key,
otherwise a chat whose system instruction embeds the initial context. -/
def startChatSession (apiKey : Option String) (initialContext : String) : Option ChatSession :=
  if !jsTruthyString apiKey then none
  else some { systemInstruction := CHAT_INSTRUCTION_HEAD ++ initialContext ++ CHAT_INSTRUCTION_TAIL }

/-- `identifyPart` (geminiService.ts). -/
def identifyPart (apiKey : Option String)
    (imageBase64 mimeType : String) : ServiceBehavior PartIdentification :=
  if !jsTruthyString apiKey then
    ServiceBehavior.mockResponse 2000 MOCK_PART
  else
    ServiceBehavior.modelRequest
      { model := "gemini-2.5-flash"
        parts := [RequestPart.inlineData imageBase64 mimeType]
        systemInstruction := PART_FINDER_INSTRUCTION }

/-- `verifyStep` (geminiService.ts). -/
def verifyStep (apiKey : Option String)
    (beforeImageBase64 afterImageBase64 beforeMimeType afterMimeType instruction : String) :
    ServiceBehavior VerificationResult :=
  if !jsTruthyString apiKey then
    ServiceBehavior.mockResponse 2000 MOCK_VERIFICATION
  else
    ServiceBehavior.modelRequest
      { model := "gemini-2.5-flash"
        parts := [RequestPart.textPart ("The user was given this instruction: \"" ++ instruction ++ "\""),
                  RequestPart.textPart "Here is the image BEFORE the step:",
                  RequestPart.inlineData beforeImageBase64 beforeMimeType,
                  RequestPart.textPart "Here is the image AFTER the user performed the step:",
                  RequestPart.inlineData afterImageBase64 afterMimeType]
        systemInstruction := STEP_VERIFICATION_INSTRUCTION }

/-- The fixed user-facing message each service function throws when the
caught error's message contains "API key not valid". -/
def API_KEY_INVALID_MESSAGE : String :=
  "Your API key is not valid. Please check it in your environment variables."

/-- The catch-block mapping shared by the three service functions: an error
whose message contains "API key not valid" becomes the fixed credential
message, any other error message is re-thrown behind the function's failure
text. -/
def serviceErrorMessage (failureText : String) (errorMessage : String) : String :=
  if jsIncludes errorMessage "API key not valid" then API_KEY_INVALID_MESSAGE
  else failureText ++ errorMessage

/-- Message thrown by `getFixItSolution` for a caught `Error` with message
`errorMessage`. -/
def getFixItSolutionThrownMessage (errorMessage : String) : String :=
  serviceErrorMessage "Failed to get solution: " errorMessage

/-- Message thrown by `identifyPart` for a caught `Error`. -/
def identifyPartThrownMessage (errorMessage : String) : String :=
  serviceErrorMessage "Failed to identify part: " errorMessage

/-- Message thrown by `verifyStep` for a caught `Error`. -/
def verifyStepThrownMessage (errorMessage : String) : String :=
  serviceErrorMessage "Failed to verify step: " errorMessage


/-! ## App state and handlers (src/App.tsx) -/

inductive AppState
  | idle
  | loading
  | error
  | solution
deriving DecidableEq

inductive ModalState
  | none
  | partFinder
deriving DecidableEq

/-- The `useState` pieces held by the `App` component. -/
structure AppSt where
  appState : AppState
  modalState : ModalState
  solution : Option Solution
  chat : Option ChatSession
  error : Option String
  locale : String
  isPartFinderLoading : Bool
  partFinderError : Option String
  partFinderResult : Option PartIdentification
  currentStepProgress : Nat
deriving DecidableEq

/-- The initial values the `useState` hooks are created with. -/
def initialAppSt : AppSt where
  appState := AppState.idle
  modalState := ModalState.none
  solution := none
  chat := none
  error := none
  locale := "Generic/Global"
  isPartFinderLoading := false
  partFinderError := none
  partFinderResult := none
  currentStepProgress := 0

/-- The outcome the awaited `getFixItSolution` promise settles with: a parsed
solution, or a thrown value whose `.message` property is `message` (`none`
models a thrown value without a message). -/
inductive FetchOutcome
  | success (result : Solution)
  | failure (message : Option String)

/-- The synchronous prefix of `handleGetSolution`, executed before the first
`await`: enter the loading state and clear solution, chat, error, progress. -/
def handleGetSolutionStart (st : AppSt) : AppSt :=
  { st with appState := AppState.loading, error := none, solution := none,
            chat := none, currentStepProgress := 0 }

/-- The chat context string `handleGetSolution` builds for a non-high-risk
result with a truthy diagnosis and an instructions array. -/
def solutionChatContext (problemDescription : String) (diagnosis : String)
    (instructions : List String) : String :=
  "Problem: " ++ problemDescription ++ "\nSolution Provided:\n- Diagnosis: " ++ diagnosis
    ++ "\n- Instructions: " ++ String.intercalate "\n" instructions

/-- What the success branch of `handleGetSolution` leaves behind: the next
state, and the argument `startChatSession` was called with (`none` when the
call was not made). -/
structure ResolveResult where
  state : AppSt
  startChatArg : Option String
deriving DecidableEq

/-- The success branch of `handleGetSolution`: show the solution, and start a
chat session only when the risk is not High, the diagnosis is truthy and the
instructions array is present. -/
def handleGetSolutionResolve (apiKey : Option String) (problemDescription : String)
    (result : Solution) (st : AppSt) : ResolveResult :=
  let st1 := { st with solution := some result, appState := AppState.solution }
  if result.risk != Risk.High && jsTruthyString result.diagnosis
      && jsTruthyArray result.instructions then
    let context := solutionChatContext problemDescription (result.diagnosis.getD "")
      (result.instructions.getD [])
    { state := { st1 with chat := startChatSession apiKey context }, startChatArg := some context }
  else
    { state := st1, startChatArg := none }

/-- The catch branch of `handleGetSolution`: surface `e.message` (or the
fallback text when it is falsy) and enter the error state. -/
def handleGetSolutionReject (message : Option String) (st : AppSt) : AppSt :=
  { st with error := some (jsOrDefault message "An unexpected error occurred."),
            appState := AppState.error }

/-- The arguments of one `getFixItSolution` call. -/
structure FetchArgs where
  fileBase64 : String
  mimeType : String
  problemDescription : String
  locale : String
deriving DecidableEq

/-- The trace of one `handleGetSolution` invocation: the state after the
synchronous prefix (before anything is awaited), the `getFixItSolution` calls
it makes, the argument of its `startChatSession` call if any, and the state
once the handler finishes with the given outcome. -/
structure SubmitTrace where
  stateBeforeAwait : AppSt
  fetchCalls : List FetchArgs
  startChatArg : Option String
  finalState : AppSt
deriving DecidableEq

/-- `handleGetSolution` (App.tsx): set loading synchronously, await the one
`getFixItSolution` call, then either resolve (possibly starting a chat) or
reject into the error state. -/
def handleGetSolution (apiKey : Option String)
    (fileBase64 mimeType problemDescription : String)
    (outcome : FetchOutcome) (st : AppSt) : SubmitTrace :=
  let st1 := handleGetSolutionStart st
  match outcome with
  | FetchOutcome.success result =>
    let r := handleGetSolutionResolve apiKey problemDescription result st1
    { stateBeforeAwait := st1
      fetchCalls := [{ fileBase64 := fileBase64, mimeType := mimeType,
                       problemDescription := problemDescription, locale := st.locale }]
      startChatArg := r.startChatArg
      finalState := r.state }
  | FetchOutcome.failure message =>
    { stateBeforeAwait := st1
      fetchCalls := [{ fileBase64 := fileBase64, mimeType := mimeType,
                       problemDescription := problemDescription, locale := st.locale }]
      startChatArg := none
      finalState := handleGetSolutionReject message st1 }

/-- Outcome of the awaited `identifyPart` promise. -/
inductive IdentifyOutcome
  | success (result : PartIdentification)
  | failure (message : Option String)

/-- The synchronous prefix of `handleIdentifyPart`: enter the part-finder
loading state and clear the previous part-finder error and result. -/
def handleIdentifyPartStart (st : AppSt) : AppSt :=
  { st with isPartFinderLoading := true, partFinderError := none, partFinderResult := none }

/-- The rest of `handleIdentifyPart` once the promise settles (the `finally`
clears the loading flag on both paths). -/
def handleIdentifyPartFinish (outcome : IdentifyOutcome) (st : AppSt) : AppSt :=
  match outcome with
  | IdentifyOutcome.success result =>
    { st with partFinderResult := some result, isPartFinderLoading := false }
  | IdentifyOutcome.failure message =>
    { st with partFinderError := some (jsOrDefault message "Failed to identify the part."),
              isPartFinderLoading := false }

/-- `handleIdentifyPart` (App.tsx), from invocation to settled promise. -/
def handleIdentifyPart (outcome : IdentifyOutcome) (st : AppSt) : AppSt :=
  handleIdentifyPartFinish outcome (handleIdentifyPartStart st)

/-- `resetPartFinder` (App.tsx). -/
def resetPartFinder (st : AppSt) : AppSt :=
  { st with partFinderResult := none, partFinderError := none }

/-- `handleOpenPartFinder` (App.tsx): reset the part finder, then open its
modal. -/
def handleOpenPartFinder (st : AppSt) : AppSt :=
  { resetPartFinder st with modalState := ModalState.partFinder }

/-- `handleCheckWork` (App.tsx): advance the step progress to `stepIndex + 1`
when a solution with an instructions array is held and `stepIndex` is below
its length. -/
def handleCheckWork (st : AppSt) (stepIndex : Nat) : AppSt :=
  match st.solution with
  | some sol =>
    match sol.instructions with
    | some instrs =>
      if stepIndex < instrs.length then { st with currentStepProgress := stepIndex + 1 }
      else st
    | none => st
  | none => st

/-- `handleReset` (App.tsx). -/
def handleReset (st : AppSt) : AppSt :=
  { st with appState := AppState.idle, solution := none, error := none,
            chat := none, currentStepProgress := 0 }

/-- Repeated `handleCheckWork` calls that each pass the currently active step
index (`currentStepProgress`), the only index the rendered Check-My-Work
button can supply. -/
def runActiveCheckWork : AppSt → Nat → AppSt
  | st, 0 => st
  | st, n + 1 => runActiveCheckWork (handleCheckWork st st.currentStepProgress) n

/-- What `renderContent` (App.tsx) renders, reduced to the component chosen
and the data handed to it. -/
inductive View
  | loadingSpinner
  | errorView (message : Option String)
  | highRiskWarning (safetyWarning : Option String)
  | solutionDisplay (solution : Solution) (chat : Option ChatSession) (currentStepIndex : Nat)
  | nullView
  | inputForm
deriving DecidableEq

/-- `renderContent` (App.tsx): the solution state renders the high-risk
safety-warning view (which shows only the safety warning text) when the
solution's risk is High, and the full `SolutionDisplay` otherwise. -/
def renderContent (st : AppSt) : View :=
  match st.appState with
  | AppState.loading => View.loadingSpinner
  | AppState.error => View.errorView st.error
  | AppState.solution =>
    match st.solution with
    | some sol =>
      if sol.risk = Risk.High then View.highRiskWarning sol.safetyWarning
      else View.solutionDisplay sol st.chat st.currentStepProgress
    | none => View.nullView
  | AppState.idle => View.inputForm

/-! ## Input form (src/unnamed/part_002, InputForm) -/

/-- A selected file, carrying its MIME type and the base64 payload
`fileToBase64` produces for it. -/
structure InputFile where
  mimeType : String
  base64Data : String
deriving DecidableEq

/-- The validation gate of `handleSubmit` (InputForm): `onSubmit` is invoked
with `(base64, file.type, problemDescription)` exactly when a file is selected
and the trimmed description is non-empty; otherwise a validation error is set
and `onSubmit` is not called. -/
def inputFormHandleSubmit (file : Option InputFile) (problemDescription : String) :
    Option (String × String × String) :=
  match file with
  | none => none
  | some f =>
    if jsTrim problemDescription = "" then none
    else some (f.base64Data, f.mimeType, problemDescription)

/-! ## Chat component (src/unnamed/part_001, ChatComponent) -/

/-- `formatResponseText`, first regex: the JavaScript engine's left-to-right
scan for the global multiline pattern that matches, at a line start, optional
whitespace, a hyphen or asterisk, and one or more whitespace characters,
replacing each match with a bullet and a space.  `atLineStart` records
whether a multiline caret matches at the current position; the match
consumes whitespace greedily, so after a match the scan resumes at a line
start exactly when the last whitespace consumed is a line terminator.
`some (remainder, resumeAtLineStart)` on a match, else `none`. -/
def matchListMarker (cs : List Char) : Option (List Char × Bool) :=
  let afterLeading := cs.drop (cs.takeWhile jsIsWhitespace).length
  match afterLeading with
  | marker :: afterMarker =>
    if marker = '-' ∨ marker = '*' then
      let trailing := afterMarker.takeWhile jsIsWhitespace
      if h : trailing ≠ [] then
        some (afterMarker.drop trailing.length, jsIsLineTerminator (trailing.getLast h))
      else Option.none
    else Option.none
  | [] => Option.none

/-- The global replace loop for the list-marker regex; the fuel starts at the
text's length, which bounds the number of scan positions. -/
def scanListMarkers : Nat → List Char → Bool → List Char
  | 0, _, _ => []
  | _ + 1, [], _ => []
  | fuel + 1, c :: rest, atLineStart =>
    if atLineStart then
      match matchListMarker (c :: rest) with
      | some (remainder, resumeAtLineStart) =>
        Char.ofNat 0x2022 :: ' ' :: scanListMarkers fuel remainder resumeAtLineStart
      | Option.none => c :: scanListMarkers fuel rest (jsIsLineTerminator c)
    else c :: scanListMarkers fuel rest (jsIsLineTerminator c)

/-- `formatResponseText` (ChatComponent): turn leading list markers into
bullets, then strip every remaining asterisk. -/
def formatResponseText (text : String) : String :=
  let replaced := scanListMarkers text.data.length text.data true
  String.mk (replaced.filter (fun c => c ≠ '*'))

/-- The `useState` pieces of `ChatComponent` that `handleSendMessage`
touches. -/
structure ChatComponentState where
  messages : List ChatMessage
  input : String
  isSending : Bool
deriving DecidableEq

/-- One `setMessages` update inside the streaming loop: replace the last
message's text with the formatted accumulated text when that message is an
AI message, and clear its loading flag. -/
def updateLastAiMessage (msgs : List ChatMessage) (accumulatedText : String) :
    List ChatMessage :=
  match msgs.getLast? with
  | some lastMessage =>
    if lastMessage.sender = Sender.ai then
      msgs.dropLast ++
        [{ lastMessage with text := formatResponseText accumulatedText, isLoading := false }]
    else msgs
  | Option.none => msgs

/-- The `for await` loop of `handleSendMessage` over the chunk texts the
reply stream yields, threading the accumulated text. -/
def consumeStream : List String → String → List ChatMessage → List ChatMessage
  | [], _, msgs => msgs
  | chunk :: rest, acc, msgs =>
    let acc2 := acc ++ chunk
    consumeStream rest acc2 (updateLastAiMessage msgs acc2)

/-- The concatenation of the chunk texts in the order the stream yields
them. -/
def concatChunks : List String → String
  | [] => ""
  | chunk :: rest => chunk ++ concatChunks rest

/-- `handleSendMessage` (ChatComponent) on a stream that yields `chunks` and
then ends: bail out on blank input or while already sending; otherwise append
the user message and a loading AI placeholder, consume the stream into the
last message, clear the input and the sending flag. -/
def handleSendMessage (st : ChatComponentState) (chunks : List String) :
    ChatComponentState :=
  let trimmedInput := jsTrim st.input
  if trimmedInput == "" || st.isSending then st
  else
    let msgs1 := st.messages ++
      [{ sender := Sender.user, text := trimmedInput, isLoading := false },
       { sender := Sender.ai, text := "", isLoading := true }]
    { messages := consumeStream chunks "" msgs1, input := "", isSending := false }



/-! ## Sample inputs used by witnesses and counterexamples -/

/-- A low-risk sample solution with two instructions. -/
def twoStepSolution : Solution where
  risk := Risk.Low
  safetyWarning := none
  diagnosis := some "Loose hinge."
  tools := some ["Screwdriver"]
  instructions := some ["Tighten the hinge screws.", "Test the door."]
  difficulty := some "Beginner"
  estimatedTime := some "10 minutes"
  potentialPitfalls := some []

/-- An application state holding `twoStepSolution`. -/
def twoStepState : AppSt :=
  { initialAppSt with
      appState := AppState.solution
      solution := some twoStepSolution }

/-- A low-risk sample solution whose diagnosis field is present but empty. -/
def emptyDiagnosisSolution : Solution where
  risk := Risk.Low
  safetyWarning := none
  diagnosis := some ""
  tools := some ["Adjustable wrench"]
  instructions := some ["Tighten the packing nut."]
  difficulty := some "Beginner"
  estimatedTime := some "5 minutes"
  potentialPitfalls := some []

/-- A low-risk sample solution with a non-empty diagnosis. -/
def lowRiskSolution : Solution where
  risk := Risk.Low
  safetyWarning := none
  diagnosis := some "The washer is worn."
  tools := some ["Wrench"]
  instructions := some ["Turn off the water.", "Replace the washer."]
  difficulty := some "Beginner"
  estimatedTime := some "20 minutes"
  potentialPitfalls := some []

/-! ## Lemmas about the JavaScript string primitives -/

lemma findSplit_sound (pat : List Char) :
    ∀ cs pre post : List Char, findSplit pat cs = some (pre, post) →
      cs = pre ++ pat ++ post := by
  intro cs
  induction cs with
  | nil =>
    intro pre post h
    unfold findSplit at h
    split at h
    · rename_i hp
      injection h with h1
      injection h1 with h2 h3
      subst h2; subst h3
      have hnil : pat = [] := List.prefix_nil.mp (List.isPrefixOf_iff_prefix.mp hp)
      simp [hnil]
    · exact absurd h (by simp)
  | cons c rest ih =>
    intro pre post h
    unfold findSplit at h
    split at h
    · rename_i hp
      injection h with h1
      injection h1 with h2 h3
      subst h2; subst h3
      obtain ⟨t, ht⟩ := List.isPrefixOf_iff_prefix.mp hp
      have hd : (c :: rest).drop pat.length = t := by
        rw [← ht, List.drop_left]
      rw [hd]
      simpa using ht.symm
    · cases hrec : findSplit pat rest with
      | none => rw [hrec] at h; exact absurd h (by simp)
      | some q =>
        obtain ⟨pre2, post2⟩ := q
        rw [hrec] at h
        injection h with h1
        injection h1 with h2 h3
        subst h2; subst h3
        simp [ih pre2 post2 hrec]

lemma findSplit_isSome (pat : List Char) :
    ∀ pre post : List Char, (findSplit pat (pre ++ (pat ++ post))).isSome = true := by
  intro pre
  induction pre with
  | nil =>
    intro post
    simp only [List.nil_append]
    cases hm : pat ++ post with
    | nil =>
      obtain ⟨hp, _⟩ := List.append_eq_nil.mp hm
      subst hp
      rfl
    | cons c rest =>
      have hpre : pat.isPrefixOf (c :: rest) = true := by
        rw [List.isPrefixOf_iff_prefix, ← hm]
        exact List.prefix_append pat post
      rw [← hm]
      unfold findSplit
      cases hm2 : pat ++ post with
      | nil => rw [hm] at hm2; exact absurd hm2 (by simp)
      | cons c2 rest2 =>
        rw [hm] at hm2
        injection hm2 with e1 e2
        subst e1; subst e2
        simp [hpre]
  | cons c pre2 ih =>
    intro post
    have hshape : (c :: pre2) ++ (pat ++ post) = c :: (pre2 ++ (pat ++ post)) := rfl
    rw [hshape]
    unfold findSplit
    by_cases hp : pat.isPrefixOf (c :: (pre2 ++ (pat ++ post))) = true
    · simp [hp]
    · simp only [Bool.not_eq_true] at hp
      simp only [hp]
      obtain ⟨q, hq⟩ := Option.isSome_iff_exists.mp (ih post)
      rw [hq]
      obtain ⟨a, b⟩ := q
      simp

lemma jsExpandReplacement_no_dollar (matched before after : List Char) :
    ∀ repl : List Char, '$' ∉ repl → jsExpandReplacement matched before after repl = repl := by
  intro repl
  induction repl with
  | nil => intro _; rfl
  | cons c rest ih =>
    intro h
    have hc : c ≠ '$' := by
      intro hc; exact h (hc ▸ List.mem_cons_self c rest)
    have hrest : '$' ∉ rest := fun hr => h (List.mem_cons_of_mem c hr)
    rw [jsExpandReplacement.eq_def]
    split <;> rename_i heq
    · exact absurd heq (by simp)
    · injection heq with h1 _; exact absurd h1 hc
    · injection heq with h1 _; exact absurd h1 hc
    · injection heq with h1 _; exact absurd h1 hc
    · injection heq with h1 _; exact absurd h1 hc
    · injection heq with h1 _; exact absurd h1 hc
    · injection heq with h1 _; exact absurd h1 hc
    · injection heq with h1 h2; subst h1; subst h2; simp [ih hrest]

/-- `s.replace(pat, repl)` for a replacement string without a dollar sign is
the plain splice of the replacement into the first occurrence of the
pattern. -/
lemma jsReplaceFirst_no_dollar (s pat repl : String) (h : '$' ∉ repl.data)
    (pre post : List Char) (hf : findSplit pat.data s.data = some (pre, post)) :
    jsReplaceFirst s pat repl = String.mk (pre ++ repl.data ++ post) := by
  unfold jsReplaceFirst
  rw [hf]
  show String.mk (pre ++ jsExpandReplacement pat.data pre post repl.data ++ post) = _
  rw [jsExpandReplacement_no_dollar pat.data pre post repl.data h]

/-- `s.replace(pat, "$&")` is the identity: the dollar-ampersand replacement
pattern reinserts the matched pattern itself. -/
lemma jsReplaceFirst_dollar_amp (s pat : String) : jsReplaceFirst s pat "$&" = s := by
  unfold jsReplaceFirst
  cases hf : findSplit pat.data s.data with
  | none => rfl
  | some q =>
    obtain ⟨pre, post⟩ := q
    have hs : s.data = pre ++ pat.data ++ post := findSplit_sound pat.data s.data pre post hf
    show String.mk (pre ++ jsExpandReplacement pat.data pre post "$&".data ++ post) = s
    have he : jsExpandReplacement pat.data pre post "$&".data = pat.data ++ [] := rfl
    rw [he, List.append_nil, ← hs]

/-! ## The claims -/

/-- C3: Invoking the reset handler from any application state sets the
solution to null, the error to null, the chat session to null and the
step-progress counter to 0 - their initial values - and returns the view
state to idle. -/
theorem handleReset_restores_initial_state (st : AppSt) :
    (handleReset st).solution = none ∧
    (handleReset st).error = none ∧
    (handleReset st).chat = none ∧
    (handleReset st).currentStepProgress = 0 ∧
    (handleReset st).appState = AppState.idle ∧
    initialAppSt.solution = none ∧
    initialAppSt.error = none ∧
    initialAppSt.chat = none ∧
    initialAppSt.currentStepProgress = 0 ∧
    initialAppSt.appState = AppState.idle :=
  ⟨rfl, rfl, rfl, rfl, rfl, rfl, rfl, rfl, rfl, rfl⟩

/-- C5: With the API credential undefined, each of the three service
functions makes no model request and resolves with its hardcoded mock
payload after a fixed 2000 ms delay. -/
theorem undefined_api_key_mock_fallback
    (fileBase64 mimeType problemDescription locale imageBase64 partMimeType
     beforeImageBase64 afterImageBase64 beforeMimeType afterMimeType instruction : String) :
    getFixItSolution none fileBase64 mimeType problemDescription locale
      = ServiceBehavior.mockResponse 2000 MOCK_SOLUTION ∧
    identifyPart none imageBase64 partMimeType
      = ServiceBehavior.mockResponse 2000 MOCK_PART ∧
    verifyStep none beforeImageBase64 afterImageBase64 beforeMimeType afterMimeType instruction
      = ServiceBehavior.mockResponse 2000 MOCK_VERIFICATION ∧
    (∀ request, getFixItSolution none fileBase64 mimeType problemDescription locale
      ≠ ServiceBehavior.modelRequest request) ∧
    (∀ request, identifyPart none imageBase64 partMimeType
      ≠ ServiceBehavior.modelRequest request) ∧
    (∀ request,
      verifyStep none beforeImageBase64 afterImageBase64 beforeMimeType afterMimeType instruction
        ≠ ServiceBehavior.modelRequest request) := by
  refine ⟨rfl, rfl, rfl, ?_, ?_, ?_⟩ <;> intro request h <;>
    simp [getFixItSolution, identifyPart, verifyStep, jsTruthyString] at h

/-- C4: For a caught Error inside any of the three service calls, a message
containing "API key not valid" is mapped to the fixed user-facing credential
message; every other message is forwarded behind the function's failure
text (so the original message text occurs in the thrown message); and these
two cases are exhaustive and mutually exclusive. -/
theorem service_error_two_categories (msg : String) :
    (jsIncludes msg "API key not valid" = true →
      getFixItSolutionThrownMessage msg = API_KEY_INVALID_MESSAGE ∧
      identifyPartThrownMessage msg = API_KEY_INVALID_MESSAGE ∧
      verifyStepThrownMessage msg = API_KEY_INVALID_MESSAGE) ∧
    (jsIncludes msg "API key not valid" = false →
      getFixItSolutionThrownMessage msg = "Failed to get solution: " ++ msg ∧
      identifyPartThrownMessage msg = "Failed to identify part: " ++ msg ∧
      verifyStepThrownMessage msg = "Failed to verify step: " ++ msg ∧
      (∃ pre post, getFixItSolutionThrownMessage msg = pre ++ msg ++ post) ∧
      (∃ pre post, identifyPartThrownMessage msg = pre ++ msg ++ post) ∧
      (∃ pre post, verifyStepThrownMessage msg = pre ++ msg ++ post)) ∧
    (jsIncludes msg "API key not valid" = true ∨ jsIncludes msg "API key not valid" = false) := by
  refine ⟨?_, ?_, ?_⟩
  · intro h
    refine ⟨?_, ?_, ?_⟩ <;>
      simp [getFixItSolutionThrownMessage, identifyPartThrownMessage, verifyStepThrownMessage,
            serviceErrorMessage, h]
  · intro h
    refine ⟨?_, ?_, ?_, ?_, ?_, ?_⟩ <;>
      simp [getFixItSolutionThrownMessage, identifyPartThrownMessage, verifyStepThrownMessage,
            serviceErrorMessage, h]
    · exact ⟨"Failed to get solution: ", "", (String.append_empty _).symm⟩
    · exact ⟨"Failed to identify part: ", "", (String.append_empty _).symm⟩
    · exact ⟨"Failed to verify step: ", "", (String.append_empty _).symm⟩
  · exact Bool.eq_false_or_eq_true _

/-- C10 (amended): The main-flow reset handler leaves the Part Finder state
(result, error, loading flag), the modal state and the selected locale
unchanged; the Part Finder reset clears the part-finder result and error and
runs when the Part Finder modal is opened; and the part-finder result and
error are also cleared at the start of each part-identification request. -/
theorem mainFlowReset_frame_partFinder (st : AppSt) :
    (handleReset st).partFinderResult = st.partFinderResult ∧
    (handleReset st).partFinderError = st.partFinderError ∧
    (handleReset st).isPartFinderLoading = st.isPartFinderLoading ∧
    (handleReset st).modalState = st.modalState ∧
    (handleReset st).locale = st.locale ∧
    (resetPartFinder st).partFinderResult = none ∧
    (resetPartFinder st).partFinderError = none ∧
    handleOpenPartFinder st = { resetPartFinder st with modalState := ModalState.partFinder } ∧
    (handleOpenPartFinder st).partFinderResult = none ∧
    (handleOpenPartFinder st).partFinderError = none ∧
    (handleIdentifyPartStart st).partFinderResult = none ∧
    (handleIdentifyPartStart st).partFinderError = none :=
  ⟨rfl, rfl, rfl, rfl, rfl, rfl, rfl, rfl, rfl, rfl, rfl, rfl⟩

/-- C10 counterexample: the Part Finder state is not cleared only by the
Part Finder reset - the synchronous prefix of `handleIdentifyPart` also
clears the held result and error (without the modal being opened), as shown
on a state that holds a part-finder result and error. -/
theorem identifyPart_clears_partFinder_counterexample :
    ({ initialAppSt with
        partFinderResult := some
          { partName := "Moen cartridge", modelNumber := none,
            description := "Faucet cartridge", purchaseLocations := ["Home Depot"],
            installationVideo := none },
        partFinderError := some "previous error" } : AppSt).partFinderResult ≠ none ∧
    (handleIdentifyPartStart
      { initialAppSt with
        partFinderResult := some
          { partName := "Moen cartridge", modelNumber := none,
            description := "Faucet cartridge", purchaseLocations := ["Home Depot"],
            installationVideo := none },
        partFinderError := some "previous error" }).partFinderResult = none ∧
    (handleIdentifyPartStart
      { initialAppSt with
        partFinderResult := some
          { partName := "Moen cartridge", modelNumber := none,
            description := "Faucet cartridge", purchaseLocations := ["Home Depot"],
            installationVideo := none },
        partFinderError := some "previous error" }).partFinderError = none := by
  refine ⟨?_, rfl, rfl⟩
  intro h
  simp at h

/-- C1: For a solution result whose risk is High, the submit handler does
not call startChatSession (the chat state stays null), and the solution
state renders the high-risk safety-warning view - showing only the safety
warning text - and not the full SolutionDisplay. -/
theorem high_risk_renders_warning_only
    (apiKey : Option String) (fileBase64 mimeType problemDescription : String)
    (result : Solution) (st : AppSt) (hrisk : result.risk = Risk.High) :
    (handleGetSolution apiKey fileBase64 mimeType problemDescription
        (FetchOutcome.success result) st).startChatArg = none ∧
    (handleGetSolution apiKey fileBase64 mimeType problemDescription
        (FetchOutcome.success result) st).finalState.chat = none ∧
    renderContent (handleGetSolution apiKey fileBase64 mimeType problemDescription
        (FetchOutcome.success result) st).finalState
      = View.highRiskWarning result.safetyWarning ∧
    (∀ sol chat idx,
      renderContent (handleGetSolution apiKey fileBase64 mimeType problemDescription
          (FetchOutcome.success result) st).finalState
        ≠ View.solutionDisplay sol chat idx) := by
  refine ⟨?_, ?_, ?_, ?_⟩ <;>
    simp [handleGetSolution, handleGetSolutionResolve, handleGetSolutionStart,
          renderContent, hrisk]

/-- Witness for C1 at a concrete high-risk result. -/
theorem high_risk_renders_warning_only_witness :
    ({ risk := Risk.High, safetyWarning := some "Stop: call a licensed electrician.",
       diagnosis := none, tools := none, instructions := none, difficulty := none,
       estimatedTime := none, potentialPitfalls := none } : Solution).risk = Risk.High ∧
    renderContent (handleGetSolution (some "key") "ZmlsZQ==" "image/png" "sparking outlet"
        (FetchOutcome.success
          { risk := Risk.High, safetyWarning := some "Stop: call a licensed electrician.",
            diagnosis := none, tools := none, instructions := none, difficulty := none,
            estimatedTime := none, potentialPitfalls := none }) initialAppSt).finalState
      = View.highRiskWarning (some "Stop: call a licensed electrician.") :=
  ⟨rfl,
   (high_risk_renders_warning_only (some "key") "ZmlsZQ==" "image/png" "sparking outlet"
     { risk := Risk.High, safetyWarning := some "Stop: call a licensed electrician.",
       diagnosis := none, tools := none, instructions := none, difficulty := none,
       estimatedTime := none, potentialPitfalls := none } initialAppSt rfl).2.2.1⟩

/-- One call of `handleCheckWork` that passes the currently active step
index never lowers the counter. -/
lemma checkWork_active_step_le (st : AppSt) :
    st.currentStepProgress ≤ (handleCheckWork st st.currentStepProgress).currentStepProgress := by
  unfold handleCheckWork
  split
  · split
    · split
      · simp
      · exact Nat.le_refl _
    · exact Nat.le_refl _
  · exact Nat.le_refl _

/-- C2 (amended): `handleCheckWork` changes the step-progress counter only
when the index is strictly below the instruction count of the held solution;
and across any sequence of calls that each pass the currently active step
index - the only calls the rendered Check-My-Work button can make, since it
is rendered only for the active step - the counter never decreases. -/
theorem checkWork_bounds_and_active_monotone (st : AppSt) (stepIndex n : Nat) :
    ((handleCheckWork st stepIndex).currentStepProgress ≠ st.currentStepProgress →
      ∃ sol instrs, st.solution = some sol ∧ sol.instructions = some instrs ∧
        stepIndex < instrs.length) ∧
    (handleCheckWork st stepIndex ≠ st →
      ∃ sol instrs, st.solution = some sol ∧ sol.instructions = some instrs ∧
        stepIndex < instrs.length) ∧
    st.currentStepProgress ≤ (handleCheckWork st st.currentStepProgress).currentStepProgress ∧
    st.currentStepProgress ≤ (runActiveCheckWork st n).currentStepProgress := by
  refine ⟨?_, ?_, checkWork_active_step_le st, ?_⟩
  · intro hne
    unfold handleCheckWork at hne
    split at hne
    · rename_i sol hsol
      split at hne
      · rename_i instrs hinstrs
        split at hne
        · rename_i hlt
          exact ⟨sol, instrs, hsol, hinstrs, hlt⟩
        · exact absurd rfl hne
      · exact absurd rfl hne
    · exact absurd rfl hne
  · intro hne
    unfold handleCheckWork at hne
    split at hne
    · rename_i sol hsol
      split at hne
      · rename_i instrs hinstrs
        split at hne
        · rename_i hlt
          exact ⟨sol, instrs, hsol, hinstrs, hlt⟩
        · exact absurd rfl hne
      · exact absurd rfl hne
    · exact absurd rfl hne
  · induction n generalizing st with
    | zero => exact Nat.le_refl _
    | succ k ih =>
      exact Nat.le_trans (checkWork_active_step_le st)
        (ih (handleCheckWork st st.currentStepProgress))

/-- C2 counterexample: the counter is not monotone across arbitrary
`handleCheckWork` call sequences within one solution's lifetime - on a state
holding a two-instruction solution, calling with index 1 and then with
index 0 moves the counter from 2 down to 1. -/
theorem checkWork_sequence_decreases_counterexample :
    (handleCheckWork twoStepState 1).currentStepProgress = 2 ∧
    (handleCheckWork (handleCheckWork twoStepState 1) 0).currentStepProgress = 1 ∧
    twoStepSolution.instructions = some ["Tighten the hinge screws.", "Test the door."] ∧
    twoStepState.solution = some twoStepSolution :=
  ⟨rfl, rfl, rfl, rfl⟩

/-- C8: For every selected file and every problem description whose trimmed
text is non-empty, the form submit handler passes the file and description
to the app submit handler exactly once, which sets the view state to
loading before awaiting anything and calls getFixItSolution exactly once. -/
theorem submit_sets_loading_and_fetches_once
    (f : InputFile) (problemDescription : String) (st : AppSt) (apiKey : Option String)
    (outcome : FetchOutcome) (h : jsTrim problemDescription ≠ "") :
    inputFormHandleSubmit (some f) problemDescription
      = some (f.base64Data, f.mimeType, problemDescription) ∧
    (handleGetSolution apiKey f.base64Data f.mimeType problemDescription outcome
        st).stateBeforeAwait.appState = AppState.loading ∧
    (handleGetSolution apiKey f.base64Data f.mimeType problemDescription outcome
        st).fetchCalls
      = [{ fileBase64 := f.base64Data, mimeType := f.mimeType,
           problemDescription := problemDescription, locale := st.locale }] := by
  refine ⟨?_, ?_, ?_⟩
  · simp [inputFormHandleSubmit, h]
  · cases outcome <;> rfl
  · cases outcome <;> rfl

/-- Witness for C8 at a concrete file and description. -/
theorem submit_sets_loading_and_fetches_once_witness :
    jsTrim "My sink is leaking." ≠ "" ∧
    inputFormHandleSubmit (some { mimeType := "image/png", base64Data := "ZmlsZQ==" })
        "My sink is leaking."
      = some ("ZmlsZQ==", "image/png", "My sink is leaking.") ∧
    (handleGetSolution none "ZmlsZQ==" "image/png" "My sink is leaking."
        (FetchOutcome.failure none) initialAppSt).stateBeforeAwait.appState
      = AppState.loading :=
  ⟨by decide,
   (submit_sets_loading_and_fetches_once { mimeType := "image/png", base64Data := "ZmlsZQ==" }
     "My sink is leaking." initialAppSt none (FetchOutcome.failure none) (by decide)).1,
   (submit_sets_loading_and_fetches_once { mimeType := "image/png", base64Data := "ZmlsZQ==" }
     "My sink is leaking." initialAppSt none (FetchOutcome.failure none) (by decide)).2.1⟩

set_option maxRecDepth 4000 in
/-- C6 (amended): with a truthy API key, the request builder selects the
video system-instruction template exactly when the MIME type starts with
"video/" and the photo template otherwise (the two templates differ), and
the system instruction sent equals the chosen template with its one
locale placeholder spliced out for the locale string, for every locale
string containing no dollar character (for locale strings with dollar
replacement patterns, JavaScript replace semantics apply instead). -/
theorem template_selection_and_locale_interpolation
    (apiKey : Option String) (fileBase64 mimeType problemDescription locale : String)
    (hkey : jsTruthyString apiKey = true) (hloc : '$' ∉ locale.data) :
    ∃ pre post : List Char,
      (if jsStartsWith mimeType "video/" then SYSTEM_INSTRUCTION_VIDEO
       else SYSTEM_INSTRUCTION_PHOTO).data = pre ++ "{locale}".data ++ post ∧
      getFixItSolution apiKey fileBase64 mimeType problemDescription locale
        = ServiceBehavior.modelRequest
            { model := "gemini-2.5-flash"
              parts := [RequestPart.inlineData fileBase64 mimeType,
                        RequestPart.textPart problemDescription]
              systemInstruction := String.mk (pre ++ locale.data ++ post) } ∧
      SYSTEM_INSTRUCTION_VIDEO ≠ SYSTEM_INSTRUCTION_PHOTO := by
  cases hv : jsStartsWith mimeType "video/" with
  | true =>
    have hd : SYSTEM_INSTRUCTION_VIDEO.data
        = VIDEO_BEFORE_LOCALE.data ++ ("{locale}".data ++ VIDEO_AFTER_LOCALE.data) := by
      simp [SYSTEM_INSTRUCTION_VIDEO, String.data_append]
    obtain ⟨q, hq0⟩ := Option.isSome_iff_exists.mp
      (findSplit_isSome "{locale}".data VIDEO_BEFORE_LOCALE.data VIDEO_AFTER_LOCALE.data)
    obtain ⟨p0, q0⟩ := q
    have hq : findSplit "{locale}".data SYSTEM_INSTRUCTION_VIDEO.data = some (p0, q0) := by
      rw [hd]; exact hq0
    refine ⟨p0, q0, ?_, ?_, by decide⟩
    · simp only [hv, if_true]
      exact findSplit_sound "{locale}".data SYSTEM_INSTRUCTION_VIDEO.data p0 q0 hq
    · simp [getFixItSolution, hkey, hv]
      simpa using jsReplaceFirst_no_dollar SYSTEM_INSTRUCTION_VIDEO "{locale}" locale hloc p0 q0 hq
  | false =>
    have hd : SYSTEM_INSTRUCTION_PHOTO.data
        = PHOTO_BEFORE_LOCALE.data ++ ("{locale}".data ++ PHOTO_AFTER_LOCALE.data) := by
      simp [SYSTEM_INSTRUCTION_PHOTO, String.data_append]
    obtain ⟨q, hq0⟩ := Option.isSome_iff_exists.mp
      (findSplit_isSome "{locale}".data PHOTO_BEFORE_LOCALE.data PHOTO_AFTER_LOCALE.data)
    obtain ⟨p0, q0⟩ := q
    have hq : findSplit "{locale}".data SYSTEM_INSTRUCTION_PHOTO.data = some (p0, q0) := by
      rw [hd]; exact hq0
    refine ⟨p0, q0, ?_, ?_, by decide⟩
    · simp only [hv, if_false]
      exact findSplit_sound "{locale}".data SYSTEM_INSTRUCTION_PHOTO.data p0 q0 hq
    · simp [getFixItSolution, hkey, hv]
      simpa using jsReplaceFirst_no_dollar SYSTEM_INSTRUCTION_PHOTO "{locale}" locale hloc p0 q0 hq

/-- Witness for C6 (amended) at a video MIME type and the locale "UK". -/
theorem template_selection_witness :
    jsTruthyString (some "key") = true ∧ '$' ∉ "UK".data ∧
    (∃ pre post : List Char,
      (if jsStartsWith "video/mp4" "video/" then SYSTEM_INSTRUCTION_VIDEO
       else SYSTEM_INSTRUCTION_PHOTO).data = pre ++ "{locale}".data ++ post ∧
      getFixItSolution (some "key") "dmlkZW8=" "video/mp4" "fan wobbles" "UK"
        = ServiceBehavior.modelRequest
            { model := "gemini-2.5-flash"
              parts := [RequestPart.inlineData "dmlkZW8=" "video/mp4",
                        RequestPart.textPart "fan wobbles"]
              systemInstruction := String.mk (pre ++ "UK".data ++ post) } ∧
      SYSTEM_INSTRUCTION_VIDEO ≠ SYSTEM_INSTRUCTION_PHOTO) :=
  ⟨by decide, by decide,
   template_selection_and_locale_interpolation (some "key") "dmlkZW8=" "video/mp4"
     "fan wobbles" "UK" (by decide) (by decide)⟩

set_option maxRecDepth 4000 in
/-- C6 counterexample: for the locale string consisting of a dollar sign and
an ampersand, JavaScript replacement-pattern semantics reinsert the matched
placeholder, so the system instruction sent is the photo template unchanged:
it still contains the placeholder and the locale string was not spliced in
anywhere, refuting the claim for every locale string. -/
theorem locale_interpolation_counterexample :
    getFixItSolution (some "key") "ZmlsZQ==" "image/png" "leaky faucet" "$&"
      = ServiceBehavior.modelRequest
          { model := "gemini-2.5-flash"
            parts := [RequestPart.inlineData "ZmlsZQ==" "image/png",
                      RequestPart.textPart "leaky faucet"]
            systemInstruction := SYSTEM_INSTRUCTION_PHOTO } ∧
    (∃ pre post : List Char,
      SYSTEM_INSTRUCTION_PHOTO.data = pre ++ "{locale}".data ++ post) ∧
    (∀ pre post : List Char, SYSTEM_INSTRUCTION_PHOTO.data ≠ pre ++ "$&".data ++ post) := by
  have hdollar : '$' ∉ SYSTEM_INSTRUCTION_PHOTO.data := by
    have e : SYSTEM_INSTRUCTION_PHOTO.data
        = PHOTO_BEFORE_LOCALE.data ++ ("{locale}".data ++ PHOTO_AFTER_LOCALE.data) := by
      simp [SYSTEM_INSTRUCTION_PHOTO, String.data_append]
    have e2 : PHOTO_AFTER_LOCALE.data
        = PHOTO_AFTER_LOCALE_1.data ++ (PHOTO_AFTER_LOCALE_2.data ++ PHOTO_AFTER_LOCALE_3.data) := by
      simp [PHOTO_AFTER_LOCALE, String.data_append]
    rw [e, e2]
    intro hmem
    rcases List.mem_append.mp hmem with h1 | h2
    · exact absurd h1 (by decide)
    · rcases List.mem_append.mp h2 with h3 | h4
      · exact absurd h3 (by decide)
      · rcases List.mem_append.mp h4 with h5 | h6
        · exact absurd h5 (by decide)
        · rcases List.mem_append.mp h6 with h7 | h8
          · exact absurd h7 (by decide)
          · exact absurd h8 (by decide)
  refine ⟨?_, ?_, ?_⟩
  · have h1 : jsTruthyString (some "key") = true := by decide
    have h2 : jsStartsWith "image/png" "video/" = false := by decide
    simp [getFixItSolution, h1, h2, jsReplaceFirst_dollar_amp]
  · exact ⟨PHOTO_BEFORE_LOCALE.data, PHOTO_AFTER_LOCALE.data,
      by simp [SYSTEM_INSTRUCTION_PHOTO, String.data_append]⟩
  · intro pre post h
    rw [h] at hdollar
    apply hdollar
    simp only [List.append_assoc, List.mem_append]
    exact Or.inr (Or.inl (by decide))

/-- C7 (amended): for a result whose risk is Low or Medium, whose diagnosis
is present and non-empty, and whose instructions field is present, the
submit handler calls startChatSession with a context string containing the
diagnosis text and containing all instruction strings joined by the newline
character. -/
theorem chat_started_with_solution_context
    (apiKey : Option String) (fileBase64 mimeType problemDescription : String)
    (result : Solution) (st : AppSt) (d : String) (instrs : List String)
    (hrisk : result.risk = Risk.Low ∨ result.risk = Risk.Medium)
    (hd : result.diagnosis = some d) (hdne : d ≠ "")
    (hi : result.instructions = some instrs) :
    ∃ ctx,
      (handleGetSolution apiKey fileBase64 mimeType problemDescription
          (FetchOutcome.success result) st).startChatArg = some ctx ∧
      (∃ p q, ctx = p ++ d ++ q) ∧
      (∃ p q, ctx = p ++ String.intercalate "\n" instrs ++ q) := by
  have hne : (result.risk != Risk.High) = true := by
    cases hrisk with
    | inl h => rw [h]; decide
    | inr h => rw [h]; decide
  refine ⟨solutionChatContext problemDescription d instrs, ?_, ?_, ?_⟩
  · simp [handleGetSolution, handleGetSolutionResolve, hne, hd, hi,
          jsTruthyString, jsTruthyArray, hdne]
  · exact ⟨"Problem: " ++ problemDescription ++ "\nSolution Provided:\n- Diagnosis: ",
      "\n- Instructions: " ++ String.intercalate "\n" instrs,
      by simp [solutionChatContext, String.append_assoc]⟩
  · exact ⟨"Problem: " ++ problemDescription ++ "\nSolution Provided:\n- Diagnosis: "
        ++ d ++ "\n- Instructions: ", "",
      by simp [solutionChatContext, String.append_assoc, String.append_empty]⟩

/-- Witness for C7 (amended) at a concrete low-risk result. -/
theorem chat_started_with_solution_context_witness :
    (lowRiskSolution.risk = Risk.Low ∨ lowRiskSolution.risk = Risk.Medium) ∧
    lowRiskSolution.diagnosis = some "The washer is worn." ∧
    "The washer is worn." ≠ "" ∧
    lowRiskSolution.instructions = some ["Turn off the water.", "Replace the washer."] ∧
    (∃ ctx,
      (handleGetSolution (some "key") "ZmlsZQ==" "image/png" "dripping tap"
          (FetchOutcome.success lowRiskSolution) initialAppSt).startChatArg = some ctx ∧
      (∃ p q, ctx = p ++ "The washer is worn." ++ q) ∧
      (∃ p q, ctx = p ++
        String.intercalate "\n" ["Turn off the water.", "Replace the washer."] ++ q)) :=
  ⟨Or.inl rfl, rfl, by decide, rfl,
   chat_started_with_solution_context (some "key") "ZmlsZQ==" "image/png" "dripping tap"
     lowRiskSolution initialAppSt "The washer is worn."
     ["Turn off the water.", "Replace the washer."] (Or.inl rfl) rfl (by decide) rfl⟩

/-- C7 counterexample: a Low-risk result whose diagnosis field is present
but empty (and whose instructions are present) does not start a chat
session - JavaScript truthiness of the empty diagnosis string fails the
guard - refuting the claim for every present diagnosis field. -/
theorem chat_context_counterexample :
    emptyDiagnosisSolution.risk = Risk.Low ∧
    emptyDiagnosisSolution.diagnosis = some "" ∧
    emptyDiagnosisSolution.instructions = some ["Tighten the packing nut."] ∧
    (handleGetSolution (some "key") "ZmlsZQ==" "image/png" "leaky faucet"
        (FetchOutcome.success emptyDiagnosisSolution) initialAppSt).startChatArg = none ∧
    (handleGetSolution (some "key") "ZmlsZQ==" "image/png" "leaky faucet"
        (FetchOutcome.success emptyDiagnosisSolution) initialAppSt).finalState.chat
      = none :=
  ⟨rfl, rfl, rfl, rfl, rfl⟩

/-- `updateLastAiMessage` on a list ending in an AI message rewrites only
that last message. -/
lemma updateLastAiMessage_concat (base : List ChatMessage) (m : ChatMessage)
    (s : String) (hm : m.sender = Sender.ai) :
    updateLastAiMessage (base ++ [m]) s =
      base ++ [{ m with text := formatResponseText s, isLoading := false }] := by
  unfold updateLastAiMessage
  rw [List.getLast?_concat]
  simp [hm, List.dropLast_concat]

/-- Consuming a stream into a list ending in an AI message touches only that
last message, and leaves it holding the formatted concatenation of the
accumulated text with every chunk. -/
lemma consumeStream_concat (base : List ChatMessage) :
    ∀ (chunks : List String) (acc : String) (m : ChatMessage), m.sender = Sender.ai →
      consumeStream chunks acc (base ++ [m]) =
        base ++ [if chunks = [] then m
                 else { sender := Sender.ai,
                        text := formatResponseText (acc ++ concatChunks chunks),
                        isLoading := false }] := by
  intro chunks
  induction chunks with
  | nil => intro acc m _; simp [consumeStream]
  | cons c rest ih =>
    intro acc m hm
    show consumeStream rest (acc ++ c) (updateLastAiMessage (base ++ [m]) (acc ++ c)) = _
    rw [updateLastAiMessage_concat base m (acc ++ c) hm]
    rw [ih (acc ++ c) { m with text := formatResponseText (acc ++ c), isLoading := false } hm]
    cases rest with
    | nil =>
      have hc : acc ++ concatChunks [c] = acc ++ c := by
        show acc ++ (c ++ "") = acc ++ c
        rw [String.append_empty]
      cases m with
      | mk snd txt ld =>
        subst hm
        simp [hc]
    | cons c2 rest2 =>
      have hassoc : (acc ++ c) ++ concatChunks (c2 :: rest2)
          = acc ++ concatChunks (c :: c2 :: rest2) := by
        show (acc ++ c) ++ concatChunks (c2 :: rest2) = acc ++ (c ++ concatChunks (c2 :: rest2))
        rw [String.append_assoc]
      simp [hassoc]

/-- C9: for every finite sequence of chunk texts one chat reply stream
yields, the send handler leaves the prior messages and the appended user
message untouched and leaves as final message the AI message whose text is
the formatting function applied to the concatenation of all chunk texts in
order (the loading flag of the placeholder is cleared once a chunk
arrives). -/
theorem chat_stream_appends_formatted_reply
    (st : ChatComponentState) (chunks : List String)
    (h1 : jsTrim st.input ≠ "") (h2 : st.isSending = false) :
    ∃ loading : Bool,
      (handleSendMessage st chunks).messages =
        st.messages ++
          [{ sender := Sender.user, text := jsTrim st.input, isLoading := false },
           { sender := Sender.ai, text := formatResponseText (concatChunks chunks),
             isLoading := loading }] ∧
      (handleSendMessage st chunks).input = "" ∧
      (handleSendMessage st chunks).isSending = false := by
  have hguard : (jsTrim st.input == "" || st.isSending) = false := by
    rw [h2]
    simp [h1]
  have hmsg : handleSendMessage st chunks =
      { messages := consumeStream chunks ""
          (st.messages ++
            [{ sender := Sender.user, text := jsTrim st.input, isLoading := false },
             { sender := Sender.ai, text := "", isLoading := true }]),
        input := "", isSending := false } := by
    simp [handleSendMessage, hguard]
  have hsplit : st.messages ++
      [{ sender := Sender.user, text := jsTrim st.input, isLoading := false },
       { sender := Sender.ai, text := "", isLoading := true }] =
      (st.messages ++
        [{ sender := Sender.user, text := jsTrim st.input, isLoading := false }]) ++
      [({ sender := Sender.ai, text := "", isLoading := true } : ChatMessage)] := by
    rw [List.append_assoc]
    rfl
  refine ⟨if chunks = [] then true else false, ?_, ?_, ?_⟩
  · rw [hmsg]
    show consumeStream chunks "" _ = _
    rw [hsplit, consumeStream_concat _ chunks ""
      { sender := Sender.ai, text := "", isLoading := true } rfl]
    cases chunks with
    | nil => simp [concatChunks, formatResponseText, scanListMarkers]
    | cons c rest =>
      have hne : (c :: rest) ≠ ([] : List String) := by simp
      rw [if_neg hne, if_neg hne]
      have : ("" : String) ++ concatChunks (c :: rest) = concatChunks (c :: rest) :=
        String.empty_append _
      simp [this]
  · rw [hmsg]
  · rw [hmsg]

/-- Witness for C9 at a concrete chat state and a two-chunk stream. -/
theorem chat_stream_appends_formatted_reply_witness :
    jsTrim "How tight should it be?" ≠ "" ∧
    ({ messages := [], input := "How tight should it be?", isSending := false } :
        ChatComponentState).isSending = false ∧
    (∃ loading : Bool,
      (handleSendMessage
          { messages := [], input := "How tight should it be?", isSending := false }
          ["Hand-tight, ", "then a quarter turn."]).messages =
        ([] : List ChatMessage) ++
          [{ sender := Sender.user, text := jsTrim "How tight should it be?",
             isLoading := false },
           { sender := Sender.ai,
             text := formatResponseText
               (concatChunks ["Hand-tight, ", "then a quarter turn."]),
             isLoading := loading }] ∧
      (handleSendMessage
          { messages := [], input := "How tight should it be?", isSending := false }
          ["Hand-tight, ", "then a quarter turn."]).input = "" ∧
      (handleSendMessage
          { messages := [], input := "How tight should it be?", isSending := false }
          ["Hand-tight, ", "then a quarter turn."]).isSending = false) :=
  ⟨by decide, rfl,
   chat_stream_appends_formatted_reply
     { messages := [], input := "How tight should it be?", isSending := false }
     ["Hand-tight, ", "then a quarter turn."] (by decide) rfl⟩

end DIYAI
